import Mathlib

/-!
Verification of the MultiKit cookie-based session authentication system.

Server side: a shallow embedding of the Elysia auth service (`src/auth.ts`,
the document whose routes are `/auth/register`, `/auth/login`, `/auth/logout`,
`/auth/me`, `/auth/change-password`, `/auth/users`, `/auth/user/:id`).
The SQLite tables `users` and `login_history` become lists of records; the
JWT plugin becomes an idealized unforgeable signature carrying the claims;
`Bun.password.hash` / `Bun.password.verify` become an idealized salted hash
whose verification succeeds exactly on the original plaintext.

Client side: a shallow embedding of `AuthClient` (the variant with
localStorage persistence).  The single-threaded JS event loop is modelled
by splitting `init()` at its `await` point into an explicit start step and
a resume step, so that interleavings of concurrent calls can be examined.
-/

namespace AuthServer

/-- JSON scalar values appearing in response bodies. -/
inductive JVal where
  | s (v : String)
  | n (v : Nat)
  | null
deriving DecidableEq, Repr

/-- Idealized salted password hash: `Bun.password.hash(pw)` with a fresh salt.
The record is opaque to JSON serialization except through `hashText`. -/
structure Hash where
  salt : Nat
  pw : String
deriving DecidableEq, Repr

/-- `Bun.password.hash(password)` with the given salt. -/
def hashPassword (salt : Nat) (password : String) : Hash :=
  ⟨salt, password⟩

/-- `Bun.password.verify(password, storedHash)`: succeeds exactly when the
plaintext matches the one that was hashed, whatever the salt. -/
def passwordVerify (password : String) (h : Hash) : Bool :=
  password == h.pw

/-- Textual form of a stored hash (what the `password` TEXT column holds). -/
def hashText (h : Hash) : String :=
  "bcrypt$" ++ toString h.salt ++ "$" ++ h.pw

/-- A row of the `users` table. -/
structure UserRow where
  id : Nat
  username : String
  password : Hash
  email : String
  firstname : Option String
  lastname : Option String
  age : Option Nat
  phone : Option String
  address : Option String
  createdAt : String
deriving DecidableEq, Repr

/-- A row of the `login_history` table. -/
structure HistRow where
  id : Nat
  userId : Nat
  loggedInAt : String
  loggedOutAt : Option String
deriving DecidableEq, Repr

/-- The in-memory SQLite database. -/
structure DB where
  users : List UserRow
  loginHistory : List HistRow
  nextUserId : Nat
  nextHistId : Nat
deriving DecidableEq, Repr

/-- JWT claims as signed by the login route: `{ userId, username }`. -/
structure Claims where
  userId : Nat
  username : String
deriving DecidableEq, Repr

/-- Idealized unforgeable MAC over the secret and the signed content. -/
structure Sig where
  secret : String
  userId : Nat
  username : String
  iat : Nat
  exp : Nat
deriving DecidableEq, Repr

/-- A session token: claims plus issue and expiry instants plus signature. -/
structure Token where
  userId : Nat
  username : String
  iat : Nat
  exp : Nat
  sig : Sig
deriving DecidableEq, Repr

/-- Token lifetime: `exp: "7d"` in the jwt plugin configuration. -/
def tokenLifetime : Nat := 7 * 24 * 60 * 60

/-- `jwt.sign({userId, username})`: expiry is `now` plus seven days. -/
def jwtSign (secret : String) (now : Nat) (userId : Nat) (username : String) : Token :=
  { userId := userId
    username := username
    iat := now
    exp := now + tokenLifetime
    sig := ⟨secret, userId, username, now, now + tokenLifetime⟩ }

/-- `jwt.verify(token)`: checks signature and expiry; any failure yields
`none`, never an exception. -/
def jwtVerify (secret : String) (now : Nat) (t : Token) : Option Claims :=
  if t.sig == ⟨secret, t.userId, t.username, t.iat, t.exp⟩ && now < t.exp then
    some ⟨t.userId, t.username⟩
  else
    none

/-- The user view resolved by the guard:
`SELECT id, username, email, firstname, lastname FROM users WHERE id = ?`. -/
structure GuardUser where
  id : Nat
  username : String
  email : String
  firstname : Option String
  lastname : Option String
deriving DecidableEq, Repr

/-- Projection of a stored row to the guard's SELECT column list. -/
def toGuardUser (u : UserRow) : GuardUser :=
  ⟨u.id, u.username, u.email, u.firstname, u.lastname⟩

/-- `SELECT ... FROM users WHERE id = ?` (first matching row). -/
def getUserById (db : DB) (uid : Nat) : Option UserRow :=
  db.users.find? (fun u => u.id == uid)

/-- `SELECT * FROM users WHERE username = ?` (first matching row). -/
def findByUsername (db : DB) (username : String) : Option UserRow :=
  db.users.find? (fun u => u.username == username)

/-- Outcome of the `isAuthenticated` macro's `resolve`. -/
inductive GuardResult where
  | err (status : Nat) (msg : String)
  | ok (user : GuardUser)
deriving DecidableEq, Repr

/-- The `isAuthenticated` macro.  Returns the guard outcome together with a
flag recording whether `token.remove()` was called on that path. -/
def isAuthenticated (db : DB) (secret : String) (now : Nat) (cookie : Option Token) :
    GuardResult × Bool :=
  match cookie with
  | none => (.err 401 "Not authenticated", false)
  | some tok =>
    match jwtVerify secret now tok with
    | none => (.err 401 "Invalid token", true)
    | some payload =>
      match getUserById db payload.userId with
      | none => (.err 401 "User not found", true)
      | some u => (.ok (toGuardUser u), false)

end AuthServer

namespace AuthServer

/-- A tiny concrete database used by concrete counterexamples below. -/
def aliceRow : UserRow :=
  { id := 1
    username := "alice"
    password := hashPassword 0 "oldpass1"
    email := "a@x.com"
    firstname := some "Alice"
    lastname := none
    age := none
    phone := none
    address := none
    createdAt := "2024-01-01" }

/-- Database holding only `alice`. -/
def dbAlice : DB :=
  { users := [aliceRow]
    loginHistory := []
    nextUserId := 2
    nextHistId := 1 }

end AuthServer

namespace AuthServer

/-- Claim C5, counterexample: on the absent-token failure path the guard does
NOT clear the session cookie (no `token.remove()` happens), while the claim
requires every failure path to actively clear it.  Concretely, with no cookie
the guard fails 401 with the removal flag `false`. -/
theorem C5_counterexample_absent_token_does_not_clear :
    isAuthenticated dbAlice "secret" 100 none = (.err 401 "Not authenticated", false) ∧
    ¬ (isAuthenticated dbAlice "secret" 100 none).2 = true := by
  constructor
  · rfl
  · decide

/-- Claim C5 (amended): the Session Guard fails `401` when the cookie token is
absent (without clearing the cookie, since none was sent), fails `401` and
clears the cookie when token verification fails, fails `401` and clears the
cookie when the verified claims' user id resolves to no user, and on success
injects the resolved user's view into the context without touching the cookie. -/
theorem C5_guard_characterization (db : DB) (secret : String) (now : Nat)
    (cookie : Option Token) :
    (cookie = none →
      isAuthenticated db secret now cookie = (.err 401 "Not authenticated", false)) ∧
    (∀ tok, cookie = some tok → jwtVerify secret now tok = none →
      isAuthenticated db secret now cookie = (.err 401 "Invalid token", true)) ∧
    (∀ tok c, cookie = some tok → jwtVerify secret now tok = some c →
      getUserById db c.userId = none →
      isAuthenticated db secret now cookie = (.err 401 "User not found", true)) ∧
    (∀ tok c u, cookie = some tok → jwtVerify secret now tok = some c →
      getUserById db c.userId = some u →
      isAuthenticated db secret now cookie = (.ok (toGuardUser u), false)) := by
  refine ⟨?_, ?_, ?_, ?_⟩
  · rintro rfl
    rfl
  · rintro tok rfl hv
    simp [isAuthenticated, hv]
  · rintro tok c rfl hv hu
    simp [isAuthenticated, hv, hu]
  · rintro tok c u rfl hv hu
    simp [isAuthenticated, hv, hu]

/-- Witness for C5: each branch of the characterization instantiated on a
concrete database and token. -/
theorem C5_guard_characterization_witness :
    isAuthenticated dbAlice "secret" 100 none = (.err 401 "Not authenticated", false) ∧
    isAuthenticated dbAlice "secret" 100
      (some (jwtSign "wrong" 50 1 "alice")) = (.err 401 "Invalid token", true) ∧
    isAuthenticated dbAlice "secret" 100
      (some (jwtSign "secret" 50 9 "ghost")) = (.err 401 "User not found", true) ∧
    isAuthenticated dbAlice "secret" 100
      (some (jwtSign "secret" 50 1 "alice")) = (.ok (toGuardUser aliceRow), false) := by
  refine ⟨?_, ?_, ?_, ?_⟩
  · exact (C5_guard_characterization dbAlice "secret" 100 none).1 rfl
  · exact (C5_guard_characterization dbAlice "secret" 100 _).2.1
      (jwtSign "wrong" 50 1 "alice") rfl (by decide)
  · exact (C5_guard_characterization dbAlice "secret" 100 _).2.2.1
      (jwtSign "secret" 50 9 "ghost") ⟨9, "ghost"⟩ rfl (by decide) (by decide)
  · exact (C5_guard_characterization dbAlice "secret" 100 _).2.2.2
      (jwtSign "secret" 50 1 "alice") ⟨1, "alice"⟩ aliceRow rfl (by decide) (by decide)

end AuthServer

namespace AuthServer

/-- Effect a route has on the session cookie. -/
inductive CookieEffect where
  | keep
  | remove
  | set (t : Token)
deriving DecidableEq, Repr

/-- Response bodies of the auth routes. -/
inductive Resp where
  | err (status : Nat) (msg : String)
  | okLogin (msg : String) (user : List (String × JVal))
  | okMsg (msg : String)
  | okUser (u : GuardUser)
  | okUsers (us : List (List (String × JVal)))
deriving DecidableEq, Repr

/-- Optional TEXT column as a JSON value. -/
def optS : Option String → JVal
  | some v => .s v
  | none => .null

/-- Optional INTEGER column as a JSON value. -/
def optN : Option Nat → JVal
  | some v => .n v
  | none => .null

/-- A full `SELECT *` row of the `users` table as a JSON object, the
`password` column included. -/
def userRowJson (u : UserRow) : List (String × JVal) :=
  [("id", .n u.id), ("username", .s u.username), ("password", .s (hashText u.password)),
   ("email", .s u.email), ("firstname", optS u.firstname), ("lastname", optS u.lastname),
   ("age", optN u.age), ("phone", optS u.phone), ("address", optS u.address),
   ("created_at", .s u.createdAt)]

/-- The rest-destructuring `const { password: _, ...userWithoutPassword } = user`:
every key except `password` survives. -/
def stripPassword (row : List (String × JVal)) : List (String × JVal) :=
  row.filter (fun kv => kv.1 ≠ "password")

/-- `POST /auth/login`.  Looks the user up by username, verifies the
password, signs a token, sets the cookie, inserts a login-history row and
returns the user row without its password; either failure returns the same
`401 Invalid credentials` with no state or cookie change. -/
def login (db : DB) (secret : String) (now : Nat) (nowIso : String)
    (username password : String) : DB × Resp × CookieEffect :=
  match findByUsername db username with
  | none => (db, .err 401 "Invalid credentials", .keep)
  | some user =>
    if passwordVerify password user.password then
      let tok := jwtSign secret now user.id user.username
      let entry : HistRow := ⟨db.nextHistId, user.id, nowIso, none⟩
      let db' := { db with
        loginHistory := db.loginHistory ++ [entry]
        nextHistId := db.nextHistId + 1 }
      (db', .okLogin "Login successful" (stripPassword (userRowJson user)), .set tok)
    else
      (db, .err 401 "Invalid credentials", .keep)

end AuthServer

namespace AuthServer

/-- Claim C4 (confirmed): an unknown username and a wrong password for an
existing username produce literally the same login outcome — status 401,
message "Invalid credentials", no cookie change, no database change — so the
caller cannot distinguish the two cases. -/
theorem C4_login_failures_indistinguishable (db : DB) (secret : String)
    (now : Nat) (nowIso : String) :
    (∀ username password, findByUsername db username = none →
      login db secret now nowIso username password =
        (db, .err 401 "Invalid credentials", .keep)) ∧
    (∀ username password u, findByUsername db username = some u →
      passwordVerify password u.password = false →
      login db secret now nowIso username password =
        (db, .err 401 "Invalid credentials", .keep)) := by
  constructor
  · intro username password h
    simp [login, h]
  · intro username password u h hv
    simp [login, h, hv]

/-- Witness for C4: in the one-user database, logging in as the unknown
user `bob` and as `alice` with a wrong password yield the identical
response triple. -/
theorem C4_login_failures_indistinguishable_witness :
    login dbAlice "secret" 100 "t0" "bob" "whatever" =
      (dbAlice, .err 401 "Invalid credentials", .keep) ∧
    login dbAlice "secret" 100 "t0" "alice" "wrongpass" =
      (dbAlice, .err 401 "Invalid credentials", .keep) := by
  constructor
  · exact (C4_login_failures_indistinguishable dbAlice "secret" 100 "t0").1
      "bob" "whatever" (by decide)
  · exact (C4_login_failures_indistinguishable dbAlice "secret" 100 "t0").2
      "alice" "wrongpass" aliceRow (by decide) (by decide)

end AuthServer

namespace AuthServer

/-- The logout handler's write:
`UPDATE login_history SET logged_out_at = ? WHERE user_id = ? AND logged_out_at IS NULL`.
Every open entry of that user is stamped, whatever its age. -/
def recordLogout (db : DB) (uid : Nat) (nowIso : String) : DB :=
  { db with
    loginHistory := db.loginHistory.map (fun h =>
      if h.userId == uid && h.loggedOutAt == none then
        { h with loggedOutAt := some nowIso }
      else h) }

/-- `POST /auth/logout`.  The route carries `isAuthenticated: true`, so the
guard runs first; only when it passes does the handler stamp the history and
remove the cookie.  The third component records whether the cookie was
removed. -/
def logout (db : DB) (secret : String) (now : Nat) (nowIso : String)
    (cookie : Option Token) : DB × Resp × Bool :=
  match isAuthenticated db secret now cookie with
  | (.err st msg, removed) => (db, .err st msg, removed)
  | (.ok user, _) => (recordLogout db user.id nowIso, .okMsg "Logged out successfully", true)

end AuthServer

namespace AuthServer

/-- Claim C3, counterexample: `POST /logout` does NOT succeed for every
request.  The route is guarded by `isAuthenticated: true`, so a request with
no session cookie is rejected `401 Not authenticated` before the handler
runs, contradicting "never fails the response". -/
theorem C3_counterexample_logout_without_cookie_fails :
    logout dbAlice "secret" 100 "t1" none = (dbAlice, .err 401 "Not authenticated", false) ∧
    (∀ msg, logout dbAlice "secret" 100 "t1" none ≠ (dbAlice, .okMsg msg, true)) := by
  constructor
  · rfl
  · intro msg h
    cases h

/-- Claim C3 (amended): `POST /logout` succeeds with a `{message}` body and a
cleared cookie exactly when the Session Guard passes; a request whose cookie
token is absent or fails verification is rejected `401` like on any other
guarded route, with no state change. -/
theorem C3_logout_guarded (db : DB) (secret : String) (now : Nat)
    (nowIso : String) (cookie : Option Token) :
    (∀ u b, isAuthenticated db secret now cookie = (.ok u, b) →
      logout db secret now nowIso cookie =
        (recordLogout db u.id nowIso, .okMsg "Logged out successfully", true)) ∧
    (cookie = none →
      logout db secret now nowIso cookie = (db, .err 401 "Not authenticated", false)) ∧
    (∀ tok, cookie = some tok → jwtVerify secret now tok = none →
      logout db secret now nowIso cookie = (db, .err 401 "Invalid token", true)) := by
  refine ⟨?_, ?_, ?_⟩
  · intro u b h
    simp [logout, h]
  · rintro rfl
    rfl
  · rintro tok rfl hv
    simp [logout, isAuthenticated, hv]

/-- Witness for C3: on the concrete database, logout with a valid cookie
succeeds and logout with no cookie or a badly signed cookie fails `401`. -/
theorem C3_logout_guarded_witness :
    logout dbAlice "secret" 100 "t1" (some (jwtSign "secret" 50 1 "alice")) =
      (recordLogout dbAlice 1 "t1", .okMsg "Logged out successfully", true) ∧
    logout dbAlice "secret" 100 "t1" none = (dbAlice, .err 401 "Not authenticated", false) ∧
    logout dbAlice "secret" 100 "t1" (some (jwtSign "wrong" 50 1 "alice")) =
      (dbAlice, .err 401 "Invalid token", true) := by
  refine ⟨?_, ?_, ?_⟩
  · exact (C3_logout_guarded dbAlice "secret" 100 "t1" _).1
      (toGuardUser aliceRow) false (by decide)
  · exact (C3_logout_guarded dbAlice "secret" 100 "t1" none).2.1 rfl
  · exact (C3_logout_guarded dbAlice "secret" 100 "t1" _).2.2
      (jwtSign "wrong" 50 1 "alice") rfl (by decide)

end AuthServer

namespace AuthServer

/-- An older open login-history entry for user 7. -/
def histOpenOld : HistRow := ⟨1, 7, "t1", none⟩

/-- A more recent open login-history entry for the same user 7. -/
def histOpenNew : HistRow := ⟨2, 7, "t2", none⟩

/-- A database in which user 7 has two open login-history entries. -/
def dbTwoOpen : DB :=
  { users := []
    loginHistory := [histOpenOld, histOpenNew]
    nextUserId := 1
    nextHistId := 3 }

/-- Claim C9, counterexample: recording a logout does not update only the
most recent open entry.  With two open entries for user 7, the logout update
stamps BOTH of them, so the older entry — which the claim requires to stay
untouched — is modified as well. -/
theorem C9_counterexample_older_open_entry_also_closed :
    (recordLogout dbTwoOpen 7 "t3").loginHistory =
      [⟨1, 7, "t1", some "t3"⟩, ⟨2, 7, "t2", some "t3"⟩] ∧
    (recordLogout dbTwoOpen 7 "t3").loginHistory[0]? ≠ some histOpenOld := by
  constructor
  · rfl
  · decide

/-- Claim C9 (amended): recording a logout for a user stamps EVERY open
entry (`loggedOutAt` null) of that user with the timestamp, not only the
most recent one; entries of other users and already-closed entries are
unchanged, and when the user has no open entry the database is unchanged. -/
theorem C9_record_logout_closes_all_open (db : DB) (uid : Nat) (nowIso : String) :
    (∀ (i : Nat) (h : HistRow), db.loginHistory[i]? = some h → h.userId ≠ uid →
      (recordLogout db uid nowIso).loginHistory[i]? = some h) ∧
    (∀ (i : Nat) (h : HistRow), db.loginHistory[i]? = some h → h.loggedOutAt ≠ none →
      (recordLogout db uid nowIso).loginHistory[i]? = some h) ∧
    (∀ (i : Nat) (h : HistRow), db.loginHistory[i]? = some h → h.userId = uid →
      h.loggedOutAt = none →
      (recordLogout db uid nowIso).loginHistory[i]? =
        some { h with loggedOutAt := some nowIso }) ∧
    ((∀ h ∈ db.loginHistory, h.userId = uid → h.loggedOutAt ≠ none) →
      recordLogout db uid nowIso = db) := by
  refine ⟨?_, ?_, ?_, ?_⟩
  · intro i h hsome hne
    simp [recordLogout, hsome, hne]
  · intro i h hsome hne
    simp [recordLogout, hsome]
    intro _ hnull
    exact absurd hnull hne
  · intro i h hsome hu hnull
    simp [recordLogout, hsome, hu, hnull]
  · intro hall
    unfold recordLogout
    have hmap : db.loginHistory.map (fun h =>
        if h.userId == uid && h.loggedOutAt == none then
          { h with loggedOutAt := some nowIso }
        else h) = db.loginHistory := by
      have hid : db.loginHistory.map (fun h =>
          if h.userId == uid && h.loggedOutAt == none then
            { h with loggedOutAt := some nowIso }
          else h) = db.loginHistory.map id := by
        refine List.map_congr_left ?_
        intro h hmem
        by_cases hu : h.userId = uid
        · have := hall h hmem hu
          simp [this]
        · simp [hu]
      rw [hid, List.map_id]
    rw [hmap]

/-- Witness for C9: the amended statement instantiated on the two-open-entry
database, on a closed entry of another user, and on the no-open no-op case. -/
theorem C9_record_logout_closes_all_open_witness :
    (recordLogout dbTwoOpen 7 "t3").loginHistory[0]? =
      some { histOpenOld with loggedOutAt := some "t3" } ∧
    (recordLogout dbTwoOpen 9 "t3").loginHistory[0]? = some histOpenOld ∧
    recordLogout dbAlice 7 "t3" = dbAlice := by
  refine ⟨?_, ?_, ?_⟩
  · exact (C9_record_logout_closes_all_open dbTwoOpen 7 "t3").2.2.1
      0 histOpenOld (by decide) (by decide) (by decide)
  · exact (C9_record_logout_closes_all_open dbTwoOpen 9 "t3").1
      0 histOpenOld (by decide) (by decide)
  · exact (C9_record_logout_closes_all_open dbAlice 7 "t3").2.2.2 (by decide)

end AuthServer

namespace AuthServer

/-- `GET /auth/me`: the guard resolves the user and the handler returns the
resolved view unchanged.  The Bool records whether the cookie was removed. -/
def me (db : DB) (secret : String) (now : Nat) (cookie : Option Token) : Resp × Bool :=
  match isAuthenticated db secret now cookie with
  | (.err st msg, removed) => (.err st msg, removed)
  | (.ok user, _) => (.okUser user, false)

/-- The change-password handler body (guard already passed).  Re-reads the
stored hash, verifies the current password, stores the new hash and removes
the cookie.  If the row vanished between guard and handler the JS code would
throw reading `dbUser.password`; that branch is modelled as a 500 and is
unreachable when the guard has just resolved the user. -/
def changePassword (db : DB) (user : GuardUser) (salt : Nat)
    (currentPassword newPassword : String) : DB × Resp × Bool :=
  match getUserById db user.id with
  | none => (db, .err 500 "Internal error", false)
  | some dbUser =>
    if passwordVerify currentPassword dbUser.password then
      ({ db with users := db.users.map (fun u =>
          if u.id == user.id then { u with password := hashPassword salt newPassword } else u) },
       .okMsg "Password changed successfully. Please login again.", true)
    else
      (db, .err 401 "Current password is incorrect", false)

/-- `PATCH /auth/change-password` with the guard in front. -/
def changePasswordRoute (db : DB) (secret : String) (now : Nat) (cookie : Option Token)
    (salt : Nat) (currentPassword newPassword : String) : DB × Resp × Bool :=
  match isAuthenticated db secret now cookie with
  | (.err st msg, removed) => (db, .err st msg, removed)
  | (.ok user, _) => changePassword db user salt currentPassword newPassword

/-- The token alice obtained by logging in before the password change. -/
def tokOldAlice : Token := jwtSign "secret" 100 1 "alice"

/-- The database state after alice successfully changes her password while
authenticated with `tokOldAlice`. -/
def dbAfterChange : DB :=
  (changePasswordRoute dbAlice "secret" 150 (some tokOldAlice) 5 "oldpass1" "newpass99").1

/-- Claim C1 is violated by the code: change-password only removes the
cookie, it does not invalidate the token itself.  Concretely: alice's
change-password succeeds (and removes the cookie), her stored hash really
changes, yet a later `GET /me` that still presents the pre-change token
passes the guard and returns her user view — it does not fail 401, because
`jwt.verify` only checks signature and expiry and the user still exists. -/
theorem C1_old_token_still_accepted_after_password_change :
    (changePasswordRoute dbAlice "secret" 150 (some tokOldAlice) 5 "oldpass1" "newpass99").2 =
      (.okMsg "Password changed successfully. Please login again.", true) ∧
    getUserById dbAfterChange 1 =
      some { aliceRow with password := hashPassword 5 "newpass99" } ∧
    me dbAfterChange "secret" 200 (some tokOldAlice) =
      (.okUser (toGuardUser aliceRow), false) ∧
    (∀ msg, (me dbAfterChange "secret" 200 (some tokOldAlice)).1 ≠ .err 401 msg) := by
  refine ⟨rfl, by decide, rfl, ?_⟩
  intro msg h
  cases h

end AuthServer

namespace AuthServer

/-- The guard's resolved user as the JSON object returned by `GET /me`. -/
def guardUserJson (u : GuardUser) : List (String × JVal) :=
  [("id", .n u.id), ("username", .s u.username), ("email", .s u.email),
   ("firstname", optS u.firstname), ("lastname", optS u.lastname)]

/-- One row of the `GET /users` response:
`SELECT id, username, email, firstname, lastname, created_at FROM users`. -/
def usersRowJson (u : UserRow) : List (String × JVal) :=
  [("id", .n u.id), ("username", .s u.username), ("email", .s u.email),
   ("firstname", optS u.firstname), ("lastname", optS u.lastname),
   ("created_at", .s u.createdAt)]

/-- `GET /auth/users` with the guard in front. -/
def getUsers (db : DB) (secret : String) (now : Nat) (cookie : Option Token) :
    Resp × Bool :=
  match isAuthenticated db secret now cookie with
  | (.err st msg, removed) => (.err st msg, removed)
  | (.ok _, _) => (.okUsers (db.users.map usersRowJson), false)

/-- All user JSON objects embedded in a response body. -/
def respUserObjects : Resp → List (List (String × JVal))
  | .okLogin _ user => [user]
  | .okUser u => [guardUserJson u]
  | .okUsers us => us
  | _ => []

/-- A JSON object carries no `password` key. -/
def objNoPassword (o : List (String × JVal)) : Bool :=
  o.all (fun kv => kv.1 != "password")

/-- Every user object embedded in a response is free of the `password` key. -/
def respNoPassword (r : Resp) : Bool :=
  (respUserObjects r).all objNoPassword

/-- Rest-destructuring away `password` leaves no `password` key behind. -/
theorem stripPassword_no_password (row : List (String × JVal)) :
    objNoPassword (stripPassword row) = true := by
  unfold objNoPassword stripPassword
  rw [List.all_eq_true]
  intro kv hkv
  have := List.of_mem_filter hkv
  simpa using this

/-- Claim C8 (confirmed): for every database state, the login response user
object, the `GET /me` user view and every element of the `GET /users` list
exclude the `password` column — no server response exposes a stored hash. -/
theorem C8_no_password_in_responses (db : DB) (secret : String) (now : Nat)
    (nowIso : String) (username password : String) (cookie : Option Token) :
    respNoPassword (login db secret now nowIso username password).2.1 = true ∧
    respNoPassword (me db secret now cookie).1 = true ∧
    respNoPassword (getUsers db secret now cookie).1 = true := by
  refine ⟨?_, ?_, ?_⟩
  · unfold login
    cases hf : findByUsername db username with
    | none => rfl
    | some u =>
      by_cases hv : passwordVerify password u.password
      · simp only [hv, if_true]
        simp [respNoPassword, respUserObjects, stripPassword_no_password]
      · simp only [hv, if_false]
        rfl
  · unfold me
    rcases hg : isAuthenticated db secret now cookie with ⟨gr, removed⟩
    cases gr with
    | err st msg => rfl
    | ok u => rfl
  · unfold getUsers
    rcases hg : isAuthenticated db secret now cookie with ⟨gr, removed⟩
    cases gr with
    | err st msg => rfl
    | ok u =>
      simp only [respNoPassword, respUserObjects]
      rw [List.all_eq_true]
      intro o ho
      rcases List.mem_map.mp ho with ⟨r, _, rfl⟩
      rfl

end AuthServer

namespace AuthServer

/-- The `PATCH /me` request body after Elysia validation: each optional
profile field is either present with a value or absent (absent keys do not
appear in `Object.entries(body)`). -/
structure UpdateBody where
  firstname : Option String
  lastname : Option String
  age : Option Nat
  phone : Option String
  address : Option String
deriving DecidableEq, Repr

/-- No field supplied: `Object.entries(body)` contributes no update. -/
def UpdateBody.isEmpty (b : UpdateBody) : Bool :=
  b.firstname.isNone && b.lastname.isNone && b.age.isNone &&
    b.phone.isNone && b.address.isNone

/-- The dynamically built `UPDATE users SET k1 = ?, ... WHERE id = ?`
applied to one row: each supplied field overwrites the column, each absent
field leaves it alone, and no other column is touched. -/
def applyUpdate (b : UpdateBody) (u : UserRow) : UserRow :=
  { u with
    firstname := match b.firstname with | some v => some v | none => u.firstname
    lastname := match b.lastname with | some v => some v | none => u.lastname
    age := match b.age with | some v => some v | none => u.age
    phone := match b.phone with | some v => some v | none => u.phone
    address := match b.address with | some v => some v | none => u.address }

/-- The `PATCH /me` handler body (guard already passed). -/
def updateMe (db : DB) (user : GuardUser) (b : UpdateBody) : DB × Resp :=
  if b.isEmpty then
    (db, .err 400 "No fields to update")
  else
    ({ db with users := db.users.map (fun r =>
        if r.id == user.id then applyUpdate b r else r) },
     .okMsg "Profile updated successfully")

/-- `PATCH /auth/me` with the guard in front. -/
def patchMe (db : DB) (secret : String) (now : Nat) (cookie : Option Token)
    (b : UpdateBody) : DB × Resp :=
  match isAuthenticated db secret now cookie with
  | (.err st msg, _) => (db, .err st msg)
  | (.ok user, _) => updateMe db user b

end AuthServer

namespace AuthServer

/-- Claim C7 (confirmed): on an authenticated `PATCH /me`, an empty body
fails `400 No fields to update` with the database untouched; a non-empty
body succeeds and rewrites exactly the rows whose id is the caller's —
each row with a different id is kept verbatim — and on the rewritten row
each supplied field takes the supplied value, each absent field keeps its
old value, and the id, username, email, password and created-at columns
are never touched. -/
theorem C7_patch_me_frame (db : DB) (secret : String) (now : Nat)
    (cookie : Option Token) (b : UpdateBody) (gu : GuardUser) (rm : Bool)
    (hg : isAuthenticated db secret now cookie = (.ok gu, rm)) :
    (b.isEmpty = true →
      patchMe db secret now cookie b = (db, .err 400 "No fields to update")) ∧
    (b.isEmpty = false →
      (patchMe db secret now cookie b).2 = .okMsg "Profile updated successfully" ∧
      (patchMe db secret now cookie b).1.users =
        db.users.map (fun r => if r.id == gu.id then applyUpdate b r else r) ∧
      (patchMe db secret now cookie b).1.loginHistory = db.loginHistory) ∧
    (∀ r : UserRow, r.id ≠ gu.id →
      (if r.id == gu.id then applyUpdate b r else r) = r) ∧
    (∀ r : UserRow,
      (applyUpdate b r).id = r.id ∧ (applyUpdate b r).username = r.username ∧
      (applyUpdate b r).email = r.email ∧ (applyUpdate b r).password = r.password ∧
      (applyUpdate b r).createdAt = r.createdAt) ∧
    (∀ r : UserRow,
      (∀ v, b.firstname = some v → (applyUpdate b r).firstname = some v) ∧
      (b.firstname = none → (applyUpdate b r).firstname = r.firstname) ∧
      (∀ v, b.lastname = some v → (applyUpdate b r).lastname = some v) ∧
      (b.lastname = none → (applyUpdate b r).lastname = r.lastname) ∧
      (∀ v, b.age = some v → (applyUpdate b r).age = some v) ∧
      (b.age = none → (applyUpdate b r).age = r.age) ∧
      (∀ v, b.phone = some v → (applyUpdate b r).phone = some v) ∧
      (b.phone = none → (applyUpdate b r).phone = r.phone) ∧
      (∀ v, b.address = some v → (applyUpdate b r).address = some v) ∧
      (b.address = none → (applyUpdate b r).address = r.address)) := by
  refine ⟨?_, ?_, ?_, ?_, ?_⟩
  · intro hemp
    simp [patchMe, hg, updateMe, hemp]
  · intro hemp
    refine ⟨?_, ?_, ?_⟩ <;> simp [patchMe, hg, updateMe, hemp]
  · intro r hne
    simp [hne]
  · intro r
    refine ⟨rfl, rfl, rfl, rfl, rfl⟩
  · intro r
    refine ⟨?_, ?_, ?_, ?_, ?_, ?_, ?_, ?_, ?_, ?_⟩ <;>
      first
        | (intro v hv
           simp [applyUpdate, hv])
        | (intro hv
           simp [applyUpdate, hv])

/-- Witness for C7: alice, authenticated with her token, patches only her
first name; the result keeps every other column, and an empty patch fails
400 leaving the database as it was. -/
theorem C7_patch_me_frame_witness :
    patchMe dbAlice "secret" 150 (some tokOldAlice)
        ⟨none, none, none, none, none⟩ = (dbAlice, .err 400 "No fields to update") ∧
    (patchMe dbAlice "secret" 150 (some tokOldAlice)
        ⟨some "Alicia", none, none, none, none⟩).1.users =
      dbAlice.users.map (fun r =>
        if r.id == (toGuardUser aliceRow).id then
          applyUpdate ⟨some "Alicia", none, none, none, none⟩ r
        else r) ∧
    (applyUpdate ⟨some "Alicia", none, none, none, none⟩ aliceRow).password =
      aliceRow.password := by
  refine ⟨?_, ?_, ?_⟩
  · exact (C7_patch_me_frame dbAlice "secret" 150 (some tokOldAlice)
      ⟨none, none, none, none, none⟩ (toGuardUser aliceRow) false (by decide)).1 rfl
  · exact ((C7_patch_me_frame dbAlice "secret" 150 (some tokOldAlice)
      ⟨some "Alicia", none, none, none, none⟩ (toGuardUser aliceRow) false
      (by decide)).2.1 rfl).2.1
  · exact ((C7_patch_me_frame dbAlice "secret" 150 (some tokOldAlice)
      ⟨some "Alicia", none, none, none, none⟩ (toGuardUser aliceRow) false
      (by decide)).2.2.2.1 aliceRow).2.2.2.1

end AuthServer

namespace AuthClientModel

/-- The user record as the client sees it. -/
structure CUser where
  id : Nat
  username : String
  email : String
deriving DecidableEq, Repr

/-- Observable state of one `AuthClient` instance.  `notificationsLog`
records, in order, the argument of every subscriber notification;
`requestCount` counts every HTTP request the wrapper actually issued;
`storage` is the localStorage slot used when `persistUser` is on. -/
structure ClientState where
  user : Option CUser
  initialized : Bool
  persistUser : Bool
  storage : Option CUser
  requestCount : Nat
  notificationsLog : List (Option CUser)
deriving DecidableEq, Repr

/-- `notify()`: every subscriber is called with the current user. -/
def notify (s : ClientState) : ClientState :=
  { s with notificationsLog := s.notificationsLog ++ [s.user] }

/-- `setUser(u)`: mutate, notify, then persist (or clear) storage when
persistence is enabled. -/
def setUser (s : ClientState) (u : Option CUser) : ClientState :=
  let s1 := notify { s with user := u }
  if s1.persistUser then { s1 with storage := u } else s1

/-- What the awaited `fetch` of `/me` came back with. -/
inductive FetchOutcome where
  | ok (u : CUser)
  | httpErr (status : Nat)
  | netErr
deriving DecidableEq, Repr

/-- The synchronous prefix of `init()` up to its `await this.fetch(...)`.
If `initialized` is already set it returns the cached user at once and no
request is issued; otherwise (after the persistence pre-notification) the
`/me` request goes out and the call suspends. -/
def initStart (s : ClientState) : ClientState × Option (Option CUser) :=
  if s.initialized then
    (s, some s.user)
  else
    let s1 := if s.user.isSome && s.persistUser then notify s else s
    ({ s1 with requestCount := s1.requestCount + 1 }, none)

/-- The continuation of `init()` once the `/me` fetch settles.  The request
wrapper first auto-clears the user on a 401; then `init` caches the returned
user on OK, caches "no user" on any other HTTP response, and on a network
error keeps a cached user if one exists.  Finally `initialized` is set and
the current user returned. -/
def initResume (s : ClientState) (r : FetchOutcome) : ClientState × Option CUser :=
  let s1 :=
    match r with
    | .ok u => setUser s (some u)
    | .httpErr status =>
      let sA := if status == 401 && s.user.isSome then setUser s none else s
      setUser sA none
    | .netErr => if s.user.isNone then setUser s none else s
  let s2 := { s1 with initialized := true }
  (s2, s2.user)

/-- A whole `init()` call that runs alone: start, then resume with the
given outcome, unless the cache answered at once. -/
def initFull (s : ClientState) (r : FetchOutcome) : ClientState × Option CUser :=
  match initStart s with
  | (s1, some u) => (s1, u)
  | (s1, none) => initResume s1 r

/-- The success path of `updateProfile`: the PATCH `/me` request goes out
and comes back OK (one request, no state effect from the wrapper on a 200),
after which the code runs `await this.init()` to refresh, with `r` the
outcome the refresh fetch would have. -/
def updateProfileAfterOk (s : ClientState) (r : FetchOutcome) : ClientState :=
  (initFull { s with requestCount := s.requestCount + 1 } r).1

/-- A fresh client: no cached user, not initialized, nothing issued. -/
def freshClient : ClientState :=
  { user := none
    initialized := false
    persistUser := false
    storage := none
    requestCount := 0
    notificationsLog := [] }

end AuthClientModel


namespace AuthClientModel

/-- `notify` only appends to the notification log. -/
theorem notify_proj (s : ClientState) :
    (notify s).user = s.user ∧ (notify s).initialized = s.initialized ∧
    (notify s).persistUser = s.persistUser ∧ (notify s).storage = s.storage ∧
    (notify s).requestCount = s.requestCount ∧
    (notify s).notificationsLog = s.notificationsLog ++ [s.user] :=
  ⟨rfl, rfl, rfl, rfl, rfl, rfl⟩

/-- Field view of `setUser`: the user is replaced, one notification with the
new value is appended, storage follows the new value when persistence is on,
and nothing else moves. -/
theorem setUser_proj (s : ClientState) (u : Option CUser) :
    (setUser s u).user = u ∧ (setUser s u).initialized = s.initialized ∧
    (setUser s u).persistUser = s.persistUser ∧
    (setUser s u).requestCount = s.requestCount ∧
    (setUser s u).notificationsLog = s.notificationsLog ++ [u] ∧
    (setUser s u).storage = (if s.persistUser then u else s.storage) := by
  unfold setUser notify
  by_cases h : s.persistUser <;> simp [h]

/-- The user a lone resume hands back, by outcome: the fetched user on OK,
`none` on any HTTP error, the previously cached user on a network error. -/
theorem initResume_ret_ok (s : ClientState) (u : CUser) :
    (initResume s (.ok u)).2 = some u := by
  simp [initResume, (setUser_proj _ _).1]

/-- An HTTP error response always leaves `null` as the resumed user. -/
theorem initResume_ret_httpErr (s : ClientState) (status : Nat) :
    (initResume s (.httpErr status)).2 = none := by
  simp [initResume, (setUser_proj _ _).1]

/-- A network error leaves the previously cached user as the resumed user. -/
theorem initResume_ret_netErr (s : ClientState) :
    (initResume s .netErr).2 = s.user := by
  by_cases h : s.user.isNone
  · simp [initResume, h, (setUser_proj _ _).1]
    exact (Option.isNone_iff_eq_none.mp h).symm
  · simp [initResume, h]

/-- The resumed state's user coincides with the returned user. -/
theorem initResume_user (s : ClientState) (r : FetchOutcome) :
    (initResume s r).1.user = (initResume s r).2 := by
  rcases r with u | status | _ <;> rfl

/-- Starting `init()` on a not-yet-initialized client issues exactly one
request, leaves the flag unset, keeps the cached user and suspends. -/
theorem initStart_pending (s : ClientState) (h : s.initialized = false) :
    (initStart s).1.requestCount = s.requestCount + 1 ∧
    (initStart s).1.initialized = false ∧
    (initStart s).1.user = s.user ∧
    (initStart s).2 = none ∧
    (initStart s).1.persistUser = s.persistUser := by
  unfold initStart
  rw [h]
  by_cases hn : s.user.isSome && s.persistUser <;> simp [hn, notify, h]

end AuthClientModel

namespace AuthClientModel

/-- Claim C2, counterexample: two `init()` calls racing on a fresh client —
both running their synchronous prefix before either `/me` fetch settles, as
the single-threaded event loop allows — issue TWO underlying requests, not
at most one: `initialized` is only set at the end of a call, so the second
caller passes the `if (this.initialized)` check too. -/
theorem C2_counterexample_concurrent_inits_issue_two_requests :
    (initStart (initStart freshClient).1).1.requestCount = 2 ∧
    ¬ (initStart (initStart freshClient).1).1.requestCount ≤ 1 := by
  constructor
  · rfl
  · decide

/-- Claim C2 (amended): only completed initializations are deduplicated —
an `init()` call made after one has completed issues no request and returns
the cached user — while two calls racing before either completes each issue
their own `/me` request (two in total); both racing callers do observe the
same resulting user when the two fetches settle with the same outcome. -/
theorem C2_init_dedup_only_after_completion (s : ClientState) (r : FetchOutcome) :
    (s.initialized = true →
      initStart s = (s, some s.user)) ∧
    (s.initialized = false →
      (initStart (initStart s).1).1.requestCount = s.requestCount + 2 ∧
      ((initResume (initResume (initStart (initStart s).1).1 r).1 r).2 =
        (initResume (initStart (initStart s).1).1 r).2)) := by
  constructor
  · intro h
    simp [initStart, h]
  · intro h
    have h1 := initStart_pending s h
    have h2 := initStart_pending (initStart s).1 h1.2.1
    constructor
    · rw [h2.1, h1.1]
    · rcases r with u | status | _
      · rw [initResume_ret_ok, initResume_ret_ok]
      · rw [initResume_ret_httpErr, initResume_ret_httpErr]
      · rw [initResume_ret_netErr, initResume_ret_netErr, initResume_user,
          initResume_ret_netErr]

/-- Witness for C2: on a fresh client the race issues exactly two requests,
and once initialization completed a later `init()` answers from the cache. -/
theorem C2_init_dedup_only_after_completion_witness :
    (initStart { freshClient with initialized := true }) =
      ({ freshClient with initialized := true }, some none) ∧
    (initStart (initStart freshClient).1).1.requestCount = 0 + 2 := by
  constructor
  · exact (C2_init_dedup_only_after_completion
      { freshClient with initialized := true } .netErr).1 rfl
  · exact ((C2_init_dedup_only_after_completion freshClient .netErr).2 rfl).1

end AuthClientModel

namespace AuthClientModel

/-- With persistence enabled, an HTTP-error resume also clears the
persisted storage slot along with the cached user. -/
theorem initResume_httpErr_storage (s : ClientState) (status : Nat)
    (hp : s.persistUser = true) :
    (initResume s (.httpErr status)).1.storage = none := by
  unfold initResume
  by_cases h : status == 401 && s.user.isSome <;> simp [h, setUser_proj, hp]

/-- A client that loaded a cached user from storage and has not run
`init()` yet. -/
def cachedClient : ClientState :=
  { user := some ⟨1, "alice", "a@x.com"⟩
    initialized := false
    persistUser := true
    storage := some ⟨1, "alice", "a@x.com"⟩
    requestCount := 0
    notificationsLog := [] }

/-- Claim C6 (confirmed): during `init()` with persistence enabled and a
user already cached, a network failure of the `/me` fetch leaves the cached
user in place (both as the returned value and in the state), while an
explicit non-OK HTTP response — any status — clears the cached user to
`null` and wipes the persisted copy. -/
theorem C6_init_network_vs_http_failure (s : ClientState) (u : CUser)
    (hp : s.persistUser = true) (hu : s.user = some u)
    (hi : s.initialized = false) :
    (initFull s .netErr).2 = some u ∧
    (initFull s .netErr).1.user = some u ∧
    (∀ status, (initFull s (.httpErr status)).2 = none ∧
      (initFull s (.httpErr status)).1.user = none ∧
      (initFull s (.httpErr status)).1.storage = none) := by
  obtain ⟨hrc, hini, huser, hpend, hpers⟩ := initStart_pending s hi
  have hfull : ∀ r, initFull s r = initResume (initStart s).1 r := by
    intro r
    unfold initFull
    rw [show initStart s = ((initStart s).1, none) by rw [← hpend]]
  refine ⟨?_, ?_, ?_⟩
  · rw [hfull, initResume_ret_netErr, huser, hu]
  · rw [hfull, initResume_user, initResume_ret_netErr, huser, hu]
  · intro status
    refine ⟨?_, ?_, ?_⟩
    · rw [hfull, initResume_ret_httpErr]
    · rw [hfull, initResume_user, initResume_ret_httpErr]
    · rw [hfull]
      exact initResume_httpErr_storage _ status (by rw [hpers, hp])

/-- Witness for C6: on the concrete cached client, a network error keeps
alice cached while a 500 response clears user and storage. -/
theorem C6_init_network_vs_http_failure_witness :
    (initFull cachedClient .netErr).1.user = some ⟨1, "alice", "a@x.com"⟩ ∧
    (initFull cachedClient (.httpErr 500)).1.user = none ∧
    (initFull cachedClient (.httpErr 500)).1.storage = none := by
  refine ⟨?_, ?_, ?_⟩
  · exact (C6_init_network_vs_http_failure cachedClient ⟨1, "alice", "a@x.com"⟩
      rfl rfl rfl).2.1
  · exact ((C6_init_network_vs_http_failure cachedClient ⟨1, "alice", "a@x.com"⟩
      rfl rfl rfl).2.2 500).2.1
  · exact ((C6_init_network_vs_http_failure cachedClient ⟨1, "alice", "a@x.com"⟩
      rfl rfl rfl).2.2 500).2.2

/-- Claim C10 (confirmed): once `init()` has completed (`initialized` set),
the refresh that a successful `updateProfile()` performs by calling `init()`
again is a no-op: the whole client state is unchanged except for the PATCH
request itself being counted — the cached user keeps its pre-update value,
no subscriber notification fires, and no `/me` request is issued, whatever
the server would have answered. -/
theorem C10_update_profile_refresh_noop (s : ClientState) (r : FetchOutcome)
    (hi : s.initialized = true) :
    updateProfileAfterOk s r = { s with requestCount := s.requestCount + 1 } ∧
    (updateProfileAfterOk s r).user = s.user ∧
    (updateProfileAfterOk s r).notificationsLog = s.notificationsLog ∧
    (updateProfileAfterOk s r).requestCount = s.requestCount + 1 := by
  have hs : initStart { s with requestCount := s.requestCount + 1 } =
      ({ s with requestCount := s.requestCount + 1 }, some s.user) := by
    unfold initStart
    simp [hi]
  have hmain : updateProfileAfterOk s r =
      { s with requestCount := s.requestCount + 1 } := by
    unfold updateProfileAfterOk initFull
    rw [hs]
  refine ⟨hmain, ?_, ?_, ?_⟩ <;> rw [hmain]

/-- Witness for C10: an initialized client caching alice keeps caching
alice after a successful profile update, even though the server would
answer the refresh with a different user record; only the PATCH request is
counted and the notification log does not grow. -/
theorem C10_update_profile_refresh_noop_witness :
    updateProfileAfterOk { cachedClient with initialized := true }
        (.ok ⟨2, "bob", "b@x.com"⟩) =
      { cachedClient with initialized := true, requestCount := 1 } ∧
    (updateProfileAfterOk { cachedClient with initialized := true }
        (.ok ⟨2, "bob", "b@x.com"⟩)).user = some ⟨1, "alice", "a@x.com"⟩ := by
  constructor
  · exact (C10_update_profile_refresh_noop { cachedClient with initialized := true }
      (.ok ⟨2, "bob", "b@x.com"⟩) rfl).1
  · exact (C10_update_profile_refresh_noop { cachedClient with initialized := true }
      (.ok ⟨2, "bob", "b@x.com"⟩) rfl).2.1

end AuthClientModel
